import Mathlib

/-!
Verification of the tracking ingestion and broadcast pipeline of
SuiteWastePWA (src/services/tracking-service.ts, src/routes/tracking.ts,
src/durable/vehicle-tracking-do.ts), shallowly embedded in Lean 4.

Numbers carried by GPS payloads are modelled by rationals; a JavaScript
number that may be NaN is modelled by the sum type JsNum.  Time stamps
(milliseconds since the epoch) are integers.  The KV cache, the D1 table
and the per-vehicle durable-object hubs are explicit state; JavaScript
exceptions are modelled by a result type that carries the state mutated
so far (a throw in JS does not roll back earlier mutations).
-/

/-- Model of a JavaScript number argument: either NaN or an actual
(rational) value.  Infinities do not arise in the validated paths. -/
inductive JsNum where
  | nan : JsNum
  | num : ℚ → JsNum
deriving DecidableEq

/-- Constant HARSH_ACCEL_THRESHOLD_M_S2 from tracking-service.ts. -/
def HARSH_ACCEL_THRESHOLD_M_S2 : ℚ := 5

/-- Constant BUFFER_MAX_POINTS from tracking-service.ts. -/
def BUFFER_MAX_POINTS : Nat := 200

/-- Constant BUFFER_FLUSH_MS from tracking-service.ts (5 minutes). -/
def BUFFER_FLUSH_MS : Int := 5 * 60 * 1000

/-- Constant LATEST_TTL_SECONDS from tracking-service.ts (not used by the
claims below but kept for completeness). -/
def LATEST_TTL_SECONDS : Nat := 5 * 60

/-- Embedding of validateLatLon: the typeof guard is vacuous under typing,
the NaN guard and the range check are the non-num and num branches. -/
def validateLatLon (lat lon : JsNum) : Bool :=
  match lat, lon with
  | JsNum.num la, JsNum.num lo =>
      decide (-90 ≤ la) && decide (la ≤ 90) && decide (-180 ≤ lo) && decide (lo ≤ 180)
  | _, _ => false

/-- Embedding of computeAcceleration from tracking-service.ts. -/
def computeAcceleration (prevSpeed curSpeed deltaSeconds : ℚ) : ℚ :=
  if deltaSeconds ≤ 0 then 0 else (curSpeed - prevSpeed) / deltaSeconds

/-- Embedding of isHarshAcceleration from tracking-service.ts. -/
def isHarshAcceleration (accelMps2 : ℚ) : Bool :=
  decide (|accelMps2| ≥ HARSH_ACCEL_THRESHOLD_M_S2)

/-- Embedding of the deltaSeconds computation in the harsh-detection block
of routes/tracking.ts: `const deltaSeconds = lastTs ? Math.max((recordedAt -
lastTs) / 1000, 0.001) : 1;` where `lastTs` is null when the KV key is
absent.  A stored timestamp of 0 is falsy in JavaScript, hence the extra
zero branch. -/
def deltaSecondsOf (lastTs : Option Int) (recordedAt : Int) : ℚ :=
  match lastTs with
  | none => 1
  | some t => if t = 0 then 1 else max (((recordedAt : ℚ) - (t : ℚ)) / 1000) (1 / 1000)

/-- Modelled from the spec (for the refinement comparison in claim C6):
elapsed seconds clamped to a minimum of 0.001 s, defaulting to 1 s exactly
when no previous timestamp exists. -/
def specDeltaSeconds (lastTs : Option Int) (recordedAt : Int) : ℚ :=
  match lastTs with
  | none => 1
  | some t => max (((recordedAt : ℚ) - (t : ℚ)) / 1000) (1 / 1000)

/-- One telemetry sample (interface GpsPoint of tracking-service.ts). -/
structure GpsPoint where
  vehicle_uuid : String
  vehicle_id : Option Int := none
  org_numeric_id : Option Int := none
  latitude : ℚ
  longitude : ℚ
  accuracy : Option ℚ := none
  speed : Option ℚ := none
  heading : Option ℚ := none
  recorded_at : Int
deriving DecidableEq

/-- One row of the gps_tracking table, as bound by the INSERT statements of
flushBufferToDb and writeSinglePointToDb. -/
structure DbRow where
  vehicle_id : Int
  org_id : Int
  latitude : ℚ
  longitude : ℚ
  accuracy : Option ℚ
  speed : Option ℚ
  heading : Option ℚ
  recorded_at : Int
deriving DecidableEq

/-- Row binding shared by flushBufferToDb and writeSinglePointToDb:
`(vehicleId, p.org_numeric_id ?? 0, p.latitude, p.longitude, p.accuracy ??
null, p.speed ?? null, p.heading ?? null, p.recorded_at)`. -/
def rowOf (vehicleId : Int) (p : GpsPoint) : DbRow :=
  { vehicle_id := vehicleId
    org_id := p.org_numeric_id.getD 0
    latitude := p.latitude
    longitude := p.longitude
    accuracy := p.accuracy
    speed := p.speed
    heading := p.heading
    recorded_at := p.recorded_at }

/-- One row of the compliance_logs table as inserted by the harsh-detection
block of routes/tracking.ts (the random uuid column is not modelled). -/
structure ComplianceRow where
  org_id : Int
  compliance_item : String
  entity_id : Int
  logged_at : Int
deriving DecidableEq

/-- One row of the vehicles table, restricted to the columns consulted by
resolveVehicleNumericId. -/
structure VehicleRow where
  id : Int
  uuid : String
  org_id : Int
  is_active : Bool
deriving DecidableEq

/-- Typed view of the KV_CACHE namespace: one field per key family of
tracking-service.ts / routes/tracking.ts (the key families are disjoint
string prefixes, so a typed split is faithful).  `none` is an absent key;
TTLs are not modelled (no claim below depends on expiry). -/
structure KvState where
  latest : Int → Option GpsPoint
  buffer : Int → Option (List GpsPoint)
  lastFlush : Int → Option Int
  lastSpeed : Int → Option ℚ
  lastTs : Int → Option Int

/-- Whole mutable state threaded through the tracking pipeline: KV
availability and contents, the gps_tracking rows, a counter of DB insert
calls together with a failure oracle for them, the vehicles table, the
compliance log, the recorded durable-object publishes, and the current
time (Date.now(), held fixed within one operation). -/
structure TrackState where
  kvAvail : Bool
  kv : KvState
  dbRows : List DbRow
  dbCalls : Nat
  dbFails : Nat → Bool
  vehicles : List VehicleRow
  complianceLogs : List ComplianceRow
  broadcasts : List (String × GpsPoint)
  doAvail : Bool
  now : Int

/-- Result of a stateful operation: a JavaScript throw does not undo the
mutations already performed, so the error case carries the state too. -/
inductive Res (α : Type) where
  | ok : α → TrackState → Res α
  | err : TrackState → Res α

/-- State carried by a result, in either case. -/
def Res.state {α : Type} : Res α → TrackState
  | Res.ok _ st => st
  | Res.err st => st

/-- Predicate for the error case. -/
def Res.isErr {α : Type} : Res α → Bool
  | Res.ok _ _ => false
  | Res.err _ => true

/-- KV put on the latest-position key family. -/
def kvPutLatest (st : TrackState) (vehicleId : Int) (p : GpsPoint) : TrackState :=
  { st with kv := { st.kv with latest := Function.update st.kv.latest vehicleId (some p) } }

/-- KV put on the buffer key family. -/
def kvPutBuffer (st : TrackState) (vehicleId : Int) (l : List GpsPoint) : TrackState :=
  { st with kv := { st.kv with buffer := Function.update st.kv.buffer vehicleId (some l) } }

/-- KV delete on the buffer key family. -/
def kvDeleteBuffer (st : TrackState) (vehicleId : Int) : TrackState :=
  { st with kv := { st.kv with buffer := Function.update st.kv.buffer vehicleId none } }

/-- KV put on the last-flush key family (the code stores String(Date.now())). -/
def kvPutLastFlush (st : TrackState) (vehicleId : Int) (t : Int) : TrackState :=
  { st with kv := { st.kv with lastFlush := Function.update st.kv.lastFlush vehicleId (some t) } }

/-- KV put on the last-speed key family. -/
def kvPutLastSpeed (st : TrackState) (vehicleId : Int) (s : ℚ) : TrackState :=
  { st with kv := { st.kv with lastSpeed := Function.update st.kv.lastSpeed vehicleId (some s) } }

/-- KV put on the last-timestamp key family. -/
def kvPutLastTs (st : TrackState) (vehicleId : Int) (t : Int) : TrackState :=
  { st with kv := { st.kv with lastTs := Function.update st.kv.lastTs vehicleId (some t) } }

/-- One `stmt.bind(...).run()` against gps_tracking: fails when the failure
oracle says so for the current call index, otherwise appends the row.  The
call counter advances in both cases. -/
def dbInsert (st : TrackState) (row : DbRow) : Res Unit :=
  if st.dbFails st.dbCalls then
    Res.err { st with dbCalls := st.dbCalls + 1 }
  else
    Res.ok () { st with dbRows := st.dbRows ++ [row], dbCalls := st.dbCalls + 1 }

/-- Convenience composite used to state final states: rows appended by a
run of successful inserts. -/
def addRows (st : TrackState) (rows : List DbRow) : TrackState :=
  { st with dbRows := st.dbRows ++ rows, dbCalls := st.dbCalls + rows.length }

/-- Embedding of the insert loop of flushBufferToDb: one parameterized
insert per buffered point, stopping at the first throw. -/
def insertLoop (vehicleId : Int) (ps : List GpsPoint) (st : TrackState) : Res Nat :=
  match ps with
  | [] => Res.ok 0 st
  | p :: rest =>
      match dbInsert st (rowOf vehicleId p) with
      | Res.err st1 => Res.err st1
      | Res.ok _ st1 =>
          match insertLoop vehicleId rest st1 with
          | Res.err st2 => Res.err st2
          | Res.ok n st2 => Res.ok (n + 1) st2

/-- Insert-then-clear phase of flushBufferToDb (tracking-service.ts lines
117-137), factored out of the points-resolution phase: insert every point,
then, on success only and only with KV present, delete the buffer key and
stamp the last-flush marker with Date.now(). -/
def flushWrite (vehicleId : Int) (localPoints : List GpsPoint) (st : TrackState) : Res Nat :=
  match insertLoop vehicleId localPoints st with
  | Res.err st1 => Res.err st1
  | Res.ok inserted st1 =>
      if st1.kvAvail then
        Res.ok inserted (kvPutLastFlush (kvDeleteBuffer st1 vehicleId) vehicleId st1.now)
      else
        Res.ok inserted st1

/-- Embedding of flushBufferToDb (tracking-service.ts lines 105-138).  When
`points` is none the buffer is read from KV (returning 0 if KV is absent or
the buffer is empty). -/
def flushBufferToDb (vehicleId : Int) (points : Option (List GpsPoint)) (st : TrackState) :
    Res Nat :=
  match points with
  | some ps => flushWrite vehicleId ps st
  | none =>
      if st.kvAvail then
        let localPoints := (st.kv.buffer vehicleId).getD []
        if localPoints.isEmpty then Res.ok 0 st else flushWrite vehicleId localPoints st
      else
        Res.ok 0 st

/-- Embedding of writeSinglePointToDb (tracking-service.ts lines 143-158). -/
def writeSinglePointToDb (vehicleId : Int) (p : GpsPoint) (st : TrackState) : Res Unit :=
  dbInsert st (rowOf vehicleId p)

/-- Embedding of bufferPoint (tracking-service.ts lines 75-100).  Without
KV the point is written straight to D1 and 1 is returned; otherwise the
point is pushed onto the buffer read from KV, and either the whole batch is
flushed (length cap reached: flush, delete the buffer key, stamp the
marker, return 0) or the extended buffer is persisted and its length
returned. -/
def bufferPoint (vehicleId : Int) (p : GpsPoint) (st : TrackState) : Res Nat :=
  if st.kvAvail then
    let buffer := ((st.kv.buffer vehicleId).getD []) ++ [p]
    if BUFFER_MAX_POINTS ≤ buffer.length then
      match flushBufferToDb vehicleId (some buffer) st with
      | Res.err st1 => Res.err st1
      | Res.ok _ st1 =>
          Res.ok 0 (kvPutLastFlush (kvDeleteBuffer st1 vehicleId) vehicleId st1.now)
    else
      Res.ok buffer.length (kvPutBuffer st vehicleId buffer)
  else
    match writeSinglePointToDb vehicleId p st with
    | Res.err st1 => Res.err st1
    | Res.ok _ st1 => Res.ok 1 st1

/-- Embedding of storeLatestInKV (tracking-service.ts lines 65-70): a no-op
without KV, otherwise an unconditional overwrite of the latest key. -/
def storeLatestInKV (vehicleId : Int) (p : GpsPoint) (st : TrackState) : TrackState :=
  if st.kvAvail then kvPutLatest st vehicleId p else st

/-- Embedding of maybeFlushBuffer (tracking-service.ts lines 163-183).  An
absent marker reads as 0; when the gap since the marker reaches
BUFFER_FLUSH_MS the buffer is read and either flushed (non-empty) or only
the marker refreshed (empty); otherwise nothing happens. -/
def maybeFlushBuffer (vehicleId : Int) (st : TrackState) : Res Unit :=
  if st.kvAvail then
    let lastFlush := (st.kv.lastFlush vehicleId).getD 0
    if BUFFER_FLUSH_MS ≤ st.now - lastFlush then
      let buffer := (st.kv.buffer vehicleId).getD []
      if 0 < buffer.length then
        match flushBufferToDb vehicleId (some buffer) st with
        | Res.err st1 => Res.err st1
        | Res.ok _ st1 => Res.ok () st1
      else
        Res.ok () (kvPutLastFlush st vehicleId st.now)
    else
      Res.ok () st
  else
    Res.ok () st

/-- Embedding of resolveVehicleNumericId (tracking-service.ts lines 54-60):
first active row matching (uuid, org), or none. -/
def resolveVehicleNumericId (st : TrackState) (orgNumericId : Int) (vehicleUuid : String) :
    Option Int :=
  (st.vehicles.find? fun v => v.uuid == vehicleUuid && v.org_id == orgNumericId && v.is_active).map
    (fun v => v.id)

/-- Parsed body of POST /tracking after the zod schema (gpsSchema): the
schema rejects NaN, so coordinates are plain rationals here. -/
structure Ingest where
  vehicle_uuid : String
  latitude : ℚ
  longitude : ℚ
  accuracy : Option ℚ := none
  speed : Option ℚ := none
  heading : Option ℚ := none
  recorded_at : Option Int := none
deriving DecidableEq

/-- Response produced by the POST /tracking handler. -/
inductive ApiRes where
  | errRes : String → Nat → ApiRes
  | okRes : Nat → ApiRes
deriving DecidableEq

/-- Point constructed by the POST /tracking handler (routes/tracking.ts
lines 71-81) from the parsed body and the resolved ids. -/
def pointOf (orgNumericId vehicleNumericId : Int) (body : Ingest) (recordedAt : Int) :
    GpsPoint :=
  { vehicle_uuid := body.vehicle_uuid
    vehicle_id := some vehicleNumericId
    org_numeric_id := some orgNumericId
    latitude := body.latitude
    longitude := body.longitude
    accuracy := body.accuracy
    speed := body.speed
    heading := body.heading
    recorded_at := recordedAt }

/-- Embedding of the harsh-detection block of routes/tracking.ts (lines
93-117).  It runs only with KV present; with both a previous speed and a
current speed it computes the acceleration (deltaSecondsOf models the
falsy-timestamp guard) and, when harsh, inserts one compliance row; when
the current sample carries a speed, the motion state is overwritten.  Its
own failures are swallowed by the inner catch; the compliance insert is
modelled as always succeeding. -/
def harshDetect (orgNumericId vehicleNumericId : Int) (speed : Option ℚ) (recordedAt : Int)
    (st : TrackState) : TrackState :=
  if st.kvAvail then
    let st1 :=
      match st.kv.lastSpeed vehicleNumericId, speed with
      | some last, some cur =>
          let lastTs := st.kv.lastTs vehicleNumericId
          let deltaSeconds := deltaSecondsOf lastTs recordedAt
          let accel := computeAcceleration last cur deltaSeconds
          if isHarshAcceleration accel then
            { st with complianceLogs := st.complianceLogs ++
                [{ org_id := orgNumericId, compliance_item := "harsh_acceleration",
                   entity_id := vehicleNumericId, logged_at := st.now }] }
          else st
      | _, _ => st
    match speed with
    | some cur => kvPutLastTs (kvPutLastSpeed st1 vehicleNumericId cur) vehicleNumericId recordedAt
    | none => st1
  else st

/-- Embedding of the durable-object publish performed by the handler
(routes/tracking.ts lines 123-139): with the DO binding present the point
is posted to the hub named after the vehicle uuid; failures are swallowed.
At the handler level only the fact of the publish is recorded; the hub
itself is modelled below for the broadcast claims. -/
def doPublish (vehicleUuid : String) (p : GpsPoint) (st : TrackState) : TrackState :=
  if st.doAvail then { st with broadcasts := st.broadcasts ++ [(vehicleUuid, p)] } else st

/-- Embedding of the POST /tracking handler (routes/tracking.ts lines
46-155) from coordinate validation onward, with the organization already
resolved to its numeric id.  The JavaScript falsy test
`if (!vehicleNumericId)` also rejects a resolved id of 0.  Throws from
bufferPoint or maybeFlushBuffer reach the outer catch, which answers
TRACKING_FAILED without undoing earlier mutations. -/
def postTracking (orgNumericId : Int) (body : Ingest) (st : TrackState) :
    ApiRes × TrackState :=
  if !(validateLatLon (JsNum.num body.latitude) (JsNum.num body.longitude)) then
    (ApiRes.errRes "INVALID_COORDS" 400, st)
  else
    match resolveVehicleNumericId st orgNumericId body.vehicle_uuid with
    | none => (ApiRes.errRes "VEHICLE_NOT_FOUND" 404, st)
    | some vehicleNumericId =>
        if vehicleNumericId = 0 then (ApiRes.errRes "VEHICLE_NOT_FOUND" 404, st)
        else
          let recordedAt := body.recorded_at.getD st.now
          let point := pointOf orgNumericId vehicleNumericId body recordedAt
          let st1 := storeLatestInKV vehicleNumericId point st
          match bufferPoint vehicleNumericId point st1 with
          | Res.err st2 => (ApiRes.errRes "TRACKING_FAILED" 500, st2)
          | Res.ok bufferLen st2 =>
              match maybeFlushBuffer vehicleNumericId st2 with
              | Res.err st3 => (ApiRes.errRes "TRACKING_FAILED" 500, st3)
              | Res.ok _ st3 =>
                  let st4 := harshDetect orgNumericId vehicleNumericId body.speed recordedAt st3
                  let st5 := doPublish body.vehicle_uuid point st4
                  (ApiRes.okRes bufferLen, st5)

/-- One live WebSocket registered on a hub (vehicle-tracking-do.ts):
its client id, whether socket.send currently throws, and the messages it
has received. -/
structure Sock where
  id : String
  failsSend : Bool
  inbox : List (GpsPoint × Int)
deriving DecidableEq

/-- Embedding of VehicleTrackingDO.broadcast (lines 38-49): iterate over
the registered clients in order; a send that throws closes and deregisters
that client only, every other client receives the serialized update.
Returns the surviving clients and the ids of the closed ones. -/
def broadcast (clients : List Sock) (m : GpsPoint × Int) : List Sock × List String :=
  match clients with
  | [] => ([], [])
  | s :: rest =>
      let r := broadcast rest m
      if s.failsSend then (r.1, s.id :: r.2)
      else ({ s with inbox := s.inbox ++ [m] } :: r.1, r.2)

/-- Embedding of the per-vehicle hub addressing (idFromName(vehicle_uuid))
composed with VehicleTrackingDO.handleUpdate (lines 90-106): a payload
without a vehicle uuid (falsy) is rejected with 400 and no hub is touched;
otherwise that vehicle's hub broadcasts the update to its clients.
Returns the new hub map, the ids closed, and the HTTP status. -/
def handleUpdate (hubs : String → List Sock) (body : GpsPoint) (now : Int) :
    (String → List Sock) × List String × Nat :=
  if body.vehicle_uuid = "" then (hubs, [], 400)
  else
    let r := broadcast (hubs body.vehicle_uuid) (body, now)
    (Function.update hubs body.vehicle_uuid r.1, r.2, 200)

/-- Degrees to radians, the local toRad of haversineDistanceKm. -/
noncomputable def toRad (x : ℝ) : ℝ := x * Real.pi / 180

/-- JavaScript Math.atan2(y, x), modelled piecewise over the reals (the
negative-zero distinction of IEEE 754 does not arise here). -/
noncomputable def atan2 (y x : ℝ) : ℝ :=
  if 0 < x then Real.arctan (y / x)
  else if x < 0 then
    (if 0 ≤ y then Real.arctan (y / x) + Real.pi else Real.arctan (y / x) - Real.pi)
  else
    (if 0 < y then Real.pi / 2 else if y < 0 then -(Real.pi / 2) else 0)

/-- Embedding of haversineDistanceKm (tracking-service.ts lines 188-198),
with real numbers for the doubles. -/
noncomputable def haversineDistanceKm (lat1 lon1 lat2 lon2 : ℝ) : ℝ :=
  let dLat := toRad (lat2 - lat1)
  let dLon := toRad (lon2 - lon1)
  let a := Real.sin (dLat / 2) * Real.sin (dLat / 2) +
    Real.cos (toRad lat1) * Real.cos (toRad lat2) *
    Real.sin (dLon / 2) * Real.sin (dLon / 2)
  let c := 2 * atan2 (Real.sqrt a) (Real.sqrt (1 - a))
  6371 * c

/-- Embedding of isWithinMeters (tracking-service.ts lines 200-203). -/
noncomputable def isWithinMeters (lat1 lon1 lat2 lon2 meters : ℝ) : Prop :=
  haversineDistanceKm lat1 lon1 lat2 lon2 * 1000 ≤ meters

/-- Scenario driver for the buffering claims: appending a list of points
sequentially through bufferPoint, stopping at the first throw and
returning the value of the last append. -/
def appendAll (v : Int) (ps : List GpsPoint) (st : TrackState) : Res Nat :=
  match ps with
  | [] => Res.ok 0 st
  | [p] => bufferPoint v p st
  | p :: rest =>
      match bufferPoint v p st with
      | Res.err st1 => Res.err st1
      | Res.ok _ st1 => appendAll v rest st1

/-- Empty KV contents. -/
def kv0 : KvState :=
  { latest := fun _ => none, buffer := fun _ => none, lastFlush := fun _ => none,
    lastSpeed := fun _ => none, lastTs := fun _ => none }

/-- Base concrete state: KV available, everything empty, no DB failures. -/
def st0 : TrackState :=
  { kvAvail := true, kv := kv0, dbRows := [], dbCalls := 0, dbFails := fun _ => false,
    vehicles := [], complianceLogs := [], broadcasts := [], doAvail := true, now := 1000000 }

/-- Concrete sample point. -/
def basePt : GpsPoint := { vehicle_uuid := "u", latitude := 1, longitude := 2, recorded_at := 0 }

/-- Concrete sample point distinct from basePt. -/
def newPt : GpsPoint := { vehicle_uuid := "u", latitude := 3, longitude := 4, recorded_at := 99 }

/-- Concrete state whose vehicle-1 buffer holds 199 points and whose first
upcoming DB insert fails. -/
def st199 : TrackState :=
  { st0 with
    kv := { kv0 with buffer := (fun v => if v = 1 then some (List.replicate 199 basePt) else none) },
    dbFails := (fun n => n == 0) }

/-- State produced by the failing cap-triggered append on st199. -/
def errSt199 : TrackState := { st199 with dbCalls := 1 }

/-- Concrete state without KV. -/
def stNoKv : TrackState := { st0 with kvAvail := false }

/-- Concrete state due for a time-based flush with one buffered point. -/
def st4 : TrackState :=
  { st0 with
    kv := { kv0 with buffer := (fun v => if v = 1 then some [basePt] else none), lastFlush := (fun _ => some 0) },
    now := 400000 }

/-- Concrete state due for a time-based flush with an empty buffer. -/
def st4e : TrackState :=
  { st0 with kv := { kv0 with lastFlush := fun _ => some 0 }, now := 400000 }

/-- Concrete state whose last flush is recent. -/
def st4f : TrackState :=
  { st0 with kv := { kv0 with lastFlush := fun _ => some 350000 }, now := 400000 }

/-- Concrete subscriber that sends fine. -/
def sockA1 : Sock := { id := "a1", failsSend := false, inbox := [] }

/-- Concrete subscriber whose send throws. -/
def sockA2 : Sock := { id := "a2", failsSend := true, inbox := [] }

/-- Concrete subscriber on the other hub. -/
def sockB1 : Sock := { id := "b1", failsSend := false, inbox := [] }

/-- Concrete hub map: two subscribers on vehicle A, one on vehicle B. -/
def hubs0 : String → List Sock :=
  fun v => if v = "A" then [sockA1, sockA2] else if v = "B" then [sockB1] else []

/-- Concrete point published on vehicle A's hub. -/
def ptA : GpsPoint := { vehicle_uuid := "A", latitude := 1, longitude := 2, recorded_at := 7 }

/-- Concrete state holding motion state with a stored timestamp of 0 for
vehicle 1. -/
def c6St : TrackState :=
  { st0 with
    kv := { kv0 with lastSpeed := (fun v => if v = 1 then some 10 else none), lastTs := (fun v => if v = 1 then some 0 else none) } }

/-- Concrete state for the handler claims: st199 plus one active vehicle
(id 1, uuid u, org 7). -/
def c8St : TrackState :=
  { st199 with vehicles := [{ id := 1, uuid := "u", org_id := 7, is_active := true }] }

/-- Concrete parsed body addressed to vehicle uuid u. -/
def body8 : Ingest :=
  { vehicle_uuid := "u", latitude := 1, longitude := 2, speed := some 20, recorded_at := some 5 }

/-- Point the handler builds from body8 on c8St. -/
def pt8 : GpsPoint := pointOf 7 1 body8 5

/-- State after the failing ingestion of body8 on c8St: latest updated,
first DB insert consumed by the failed flush. -/
def c8ErrSt : TrackState := { kvPutLatest c8St 1 pt8 with dbCalls := 1 }

/-- Concrete parsed body whose vehicle uuid resolves to no vehicle. -/
def body7 : Ingest :=
  { vehicle_uuid := "nope", latitude := 1, longitude := 2, recorded_at := some 5 }

lemma addRows_nil (st : TrackState) : addRows st [] = st := by
  cases st
  simp [addRows]

lemma insertLoop_ok (v : Int) (ps : List GpsPoint) (st : TrackState)
    (hdb : ∀ n, st.dbFails n = false) :
    insertLoop v ps st = Res.ok ps.length (addRows st (ps.map (rowOf v))) := by
  induction ps generalizing st with
  | nil => simp [insertLoop, addRows_nil]
  | cons p rest ih =>
      have h1 : st.dbFails st.dbCalls = false := hdb _
      have ih1 := ih { st with dbRows := st.dbRows ++ [rowOf v p], dbCalls := st.dbCalls + 1 } hdb
      simp [insertLoop, dbInsert, h1, ih1, addRows, List.append_assoc, Nat.add_comm,
        Nat.add_assoc, Nat.add_left_comm]

lemma insertLoop_state_kv (v : Int) (ps : List GpsPoint) (st : TrackState) :
    (insertLoop v ps st).state.kv = st.kv := by
  induction ps generalizing st with
  | nil => rfl
  | cons p rest ih =>
      cases h : st.dbFails st.dbCalls with
      | true => simp [insertLoop, dbInsert, h, Res.state]
      | false =>
          have ih1 := ih { st with dbRows := st.dbRows ++ [rowOf v p], dbCalls := st.dbCalls + 1 }
          cases h2 : insertLoop v rest
              { st with dbRows := st.dbRows ++ [rowOf v p], dbCalls := st.dbCalls + 1 } with
          | ok n st2 =>
              rw [h2] at ih1
              simp [insertLoop, dbInsert, h, h2, Res.state] at ih1 ⊢
              exact ih1
          | err st2 =>
              rw [h2] at ih1
              simp [insertLoop, dbInsert, h, h2, Res.state] at ih1 ⊢
              exact ih1

lemma flushBufferToDb_some_ok (v : Int) (ps : List GpsPoint) (st : TrackState)
    (hkv : st.kvAvail = true) (hdb : ∀ n, st.dbFails n = false) :
    flushBufferToDb v (some ps) st =
      Res.ok ps.length
        (kvPutLastFlush (kvDeleteBuffer (addRows st (ps.map (rowOf v))) v) v st.now) := by
  simp [flushBufferToDb, flushWrite, insertLoop_ok v ps st hdb, addRows, hkv]

lemma bufferPoint_small (v : Int) (p : GpsPoint) (st : TrackState) (l : List GpsPoint)
    (hkv : st.kvAvail = true) (hbuf : (st.kv.buffer v).getD [] = l)
    (hlen : l.length + 1 < 200) :
    bufferPoint v p st = Res.ok (l.length + 1) (kvPutBuffer st v (l ++ [p])) := by
  have hc : ¬ ((200 : Nat) ≤ l.length + 1) := by omega
  simp [bufferPoint, BUFFER_MAX_POINTS, hkv, hbuf, hc]

lemma bufferPoint_cap (v : Int) (p : GpsPoint) (st : TrackState) (l : List GpsPoint)
    (hkv : st.kvAvail = true) (hbuf : (st.kv.buffer v).getD [] = l)
    (hlen : l.length + 1 = 200) (hdb : ∀ n, st.dbFails n = false) :
    bufferPoint v p st = Res.ok 0
      (kvPutLastFlush (kvDeleteBuffer (addRows st ((l ++ [p]).map (rowOf v))) v) v st.now) := by
  have hc : (200 : Nat) ≤ l.length + 1 := by omega
  have hf := flushBufferToDb_some_ok v (l ++ [p]) st hkv hdb
  simp [bufferPoint, BUFFER_MAX_POINTS, hkv, hbuf, hc, hf, kvPutLastFlush, kvDeleteBuffer,
    addRows, Function.update_idem]


lemma flushWrite_err_kv (v : Int) (ps : List GpsPoint) (st st' : TrackState)
    (h : flushWrite v ps st = Res.err st') : st'.kv = st.kv := by
  have hkv := insertLoop_state_kv v ps st
  cases h2 : insertLoop v ps st with
  | err st1 =>
      rw [h2] at hkv
      simp only [flushWrite, h2] at h
      cases h
      simpa [Res.state] using hkv
  | ok n st1 =>
      simp only [flushWrite, h2] at h
      by_cases hk : st1.kvAvail = true <;> simp [hk] at h

lemma flushBufferToDb_err_kv (v : Int) (pts : Option (List GpsPoint)) (st st' : TrackState)
    (h : flushBufferToDb v pts st = Res.err st') : st'.kv = st.kv := by
  cases pts with
  | some ps => exact flushWrite_err_kv v ps st st' h
  | none =>
      simp only [flushBufferToDb] at h
      by_cases hk : st.kvAvail = true
      · simp only [hk, if_true] at h
        by_cases he : ((st.kv.buffer v).getD []).isEmpty = true
        · simp [he] at h
        · simp only [he, if_false, Bool.false_eq_true, if_neg] at h
          exact flushWrite_err_kv v _ st st' h
      · simp [hk] at h

lemma bufferPoint_err_kv (v : Int) (p : GpsPoint) (st st' : TrackState)
    (h : bufferPoint v p st = Res.err st') : st'.kv = st.kv := by
  by_cases hk : st.kvAvail = true
  · simp only [bufferPoint, hk, if_true] at h
    by_cases hc : BUFFER_MAX_POINTS ≤ ((st.kv.buffer v).getD []).length + 1
    · simp only [List.length_append, List.length_cons, List.length_nil, Nat.zero_add, hc,
        if_pos] at h
      cases h2 : flushBufferToDb v (some ((st.kv.buffer v).getD [] ++ [p])) st with
      | err st1 =>
          rw [h2] at h
          cases h
          exact flushBufferToDb_err_kv v _ st st' h2
      | ok n st1 => rw [h2] at h; simp at h
    · simp [hc] at h
  · simp only [bufferPoint, hk, Bool.false_eq_true, if_neg, if_false] at h
    cases h2 : writeSinglePointToDb v p st with
    | err st1 =>
        rw [h2] at h
        cases h
        simp only [writeSinglePointToDb, dbInsert] at h2
        by_cases hf : st.dbFails st.dbCalls = true
        · simp only [hf, if_pos] at h2
          cases h2
          rfl
        · simp [hf] at h2
    | ok u st1 => rw [h2] at h; simp at h

lemma kvPutBuffer_idem (st : TrackState) (v : Int) (a b : List GpsPoint) :
    kvPutBuffer (kvPutBuffer st v a) v b = kvPutBuffer st v b := by
  simp [kvPutBuffer, Function.update_idem]

lemma appendAll_ok (v : Int) (ps : List GpsPoint) (st : TrackState) (l : List GpsPoint)
    (hkv : st.kvAvail = true) (hbuf : (st.kv.buffer v).getD [] = l)
    (hne : ps ≠ []) (hlen : l.length + ps.length ≤ 199) :
    appendAll v ps st = Res.ok (l.length + ps.length) (kvPutBuffer st v (l ++ ps)) := by
  induction ps generalizing st l with
  | nil => cases hne rfl
  | cons p rest ih =>
      cases rest with
      | nil =>
          have hs := bufferPoint_small v p st l hkv hbuf (by simp at hlen; omega)
          simp [appendAll, hs]
      | cons q rest2 =>
          have hs := bufferPoint_small v p st l hkv hbuf (by simp at hlen; omega)
          have ih1 := ih (kvPutBuffer st v (l ++ [p])) (l ++ [p]) hkv
            (by simp [kvPutBuffer, Function.update_same])
            (by simp)
            (by simp at hlen ⊢; omega)
          simp only [appendAll, hs, ih1, kvPutBuffer_idem]
          simp [List.append_assoc, Nat.add_comm, Nat.add_assoc, Nat.add_left_comm]

lemma appendAll_cap (v : Int) (ps : List GpsPoint) (st : TrackState) (l : List GpsPoint)
    (hkv : st.kvAvail = true) (hbuf : (st.kv.buffer v).getD [] = l)
    (hne : ps ≠ []) (hlen : l.length + ps.length = 200) (hdb : ∀ n, st.dbFails n = false) :
    appendAll v ps st = Res.ok 0
      (kvPutLastFlush (kvDeleteBuffer (addRows st ((l ++ ps).map (rowOf v))) v) v st.now) := by
  induction ps generalizing st l with
  | nil => cases hne rfl
  | cons p rest ih =>
      cases rest with
      | nil =>
          have hs := bufferPoint_cap v p st l hkv hbuf (by simp at hlen; omega) hdb
          simp [appendAll, hs]
      | cons q rest2 =>
          have hs := bufferPoint_small v p st l hkv hbuf (by simp at hlen; omega)
          have ih1 := ih (kvPutBuffer st v (l ++ [p])) (l ++ [p]) hkv
            (by simp [kvPutBuffer, Function.update_same])
            (by simp)
            (by simp at hlen ⊢; omega)
            hdb
          simp only [appendAll, hs, ih1]
          simp [kvPutBuffer, kvDeleteBuffer, kvPutLastFlush, addRows, Function.update_idem,
            List.append_assoc]

lemma maybeFlushBuffer_err_kv (v : Int) (st st' : TrackState)
    (h : maybeFlushBuffer v st = Res.err st') : st'.kv = st.kv := by
  by_cases hk : st.kvAvail = true
  · simp only [maybeFlushBuffer, hk, if_true] at h
    by_cases hd : BUFFER_FLUSH_MS ≤ st.now - (st.kv.lastFlush v).getD 0
    · simp only [hd, if_pos] at h
      by_cases hb : 0 < ((st.kv.buffer v).getD []).length
      · simp only [hb, if_pos] at h
        cases h2 : flushBufferToDb v (some ((st.kv.buffer v).getD [])) st with
        | err st1 =>
            rw [h2] at h
            cases h
            exact flushBufferToDb_err_kv v _ st st' h2
        | ok n st1 => rw [h2] at h; simp at h
      · simp [hb] at h
    · simp [hd] at h
  · simp [maybeFlushBuffer, hk] at h
lemma broadcast_eq (l : List Sock) (m : GpsPoint × Int) :
    broadcast l m =
      ((l.filter fun s => !s.failsSend).map (fun s => { s with inbox := s.inbox ++ [m] }),
        (l.filter fun s => s.failsSend).map (fun s => s.id)) := by
  induction l with
  | nil => rfl
  | cons s rest ih =>
      cases hf : s.failsSend <;> simp [broadcast, ih, hf, List.filter_cons]

/-- Claim C9: the coordinate validator accepts a pair of numbers exactly
when -90 ≤ lat ≤ 90 and -180 ≤ lon ≤ 180, and rejects whenever either
argument is NaN. -/
theorem validateLatLon_ranges :
    (∀ la lo : ℚ, validateLatLon (JsNum.num la) (JsNum.num lo) = true ↔
      (-90 ≤ la ∧ la ≤ 90 ∧ -180 ≤ lo ∧ lo ≤ 180)) ∧
    (∀ x : JsNum, validateLatLon JsNum.nan x = false ∧ validateLatLon x JsNum.nan = false) := by
  constructor
  · intro la lo
    simp [validateLatLon, and_assoc]
  · intro x
    cases x <;> simp [validateLatLon]

/-- Claim C10: the haversine distance from a point to itself is 0, and the
haversine distance is symmetric in its two points. -/
theorem haversineDistanceKm_self_symm :
    (∀ lat lon : ℝ, haversineDistanceKm lat lon lat lon = 0) ∧
    (∀ lat1 lon1 lat2 lon2 : ℝ,
      haversineDistanceKm lat1 lon1 lat2 lon2 = haversineDistanceKm lat2 lon2 lat1 lon1) := by
  constructor
  · intro lat lon
    have h0 : toRad (lat - lat) = 0 := by simp [toRad]
    have hz : toRad 0 = 0 := by simp [toRad]
    simp [haversineDistanceKm, h0, hz, Real.sin_zero, Real.sqrt_zero, Real.sqrt_one, atan2,
      Real.arctan_zero]
  · intro a1 o1 a2 o2
    have h1 : toRad (a2 - a1) = -toRad (a1 - a2) := by unfold toRad; ring
    have h2 : toRad (o2 - o1) = -toRad (o1 - o2) := by unfold toRad; ring
    have ha : Real.sin (toRad (a2 - a1) / 2) * Real.sin (toRad (a2 - a1) / 2) +
        Real.cos (toRad a1) * Real.cos (toRad a2) * Real.sin (toRad (o2 - o1) / 2) *
        Real.sin (toRad (o2 - o1) / 2)
        = Real.sin (toRad (a1 - a2) / 2) * Real.sin (toRad (a1 - a2) / 2) +
        Real.cos (toRad a2) * Real.cos (toRad a1) * Real.sin (toRad (o1 - o2) / 2) *
        Real.sin (toRad (o1 - o2) / 2) := by
      simp only [h1, h2, neg_div, Real.sin_neg]
      ring
    simp only [haversineDistanceKm]
    rw [ha]

/-- Claim C5: publishing an update on a vehicle's hub delivers the update
to every registered connection of that hub whose send works, closes and
deregisters exactly the connections whose send fails, leaves every other
vehicle's hub untouched, and reports success. -/
theorem handleUpdate_broadcast :
    ∀ (hubs : String → List Sock) (body : GpsPoint) (now : Int),
      body.vehicle_uuid ≠ "" →
      ((handleUpdate hubs body now).1 body.vehicle_uuid =
        ((hubs body.vehicle_uuid).filter fun s => !s.failsSend).map
          (fun s => { s with inbox := s.inbox ++ [(body, now)] })) ∧
      (∀ other : String, other ≠ body.vehicle_uuid →
        (handleUpdate hubs body now).1 other = hubs other) ∧
      ((handleUpdate hubs body now).2.1 =
        ((hubs body.vehicle_uuid).filter fun s => s.failsSend).map (fun s => s.id)) ∧
      (handleUpdate hubs body now).2.2 = 200 := by
  intro hubs body now hne
  refine ⟨?_, ?_, ?_, ?_⟩
  · simp [handleUpdate, hne, broadcast_eq, Function.update_same]
  · intro other hother
    simp [handleUpdate, hne, Function.update_noteq hother]
  · simp [handleUpdate, hne, broadcast_eq]
  · simp [handleUpdate, hne]

/-- Witness for C5 at the concrete two-hub configuration: vehicle B's hub
is untouched by a publish on vehicle A, and the publish succeeds. -/
theorem handleUpdate_broadcast_witness :
    ptA.vehicle_uuid ≠ "" ∧ ("B" : String) ≠ ptA.vehicle_uuid ∧
    (handleUpdate hubs0 ptA 7).1 "B" = hubs0 "B" ∧
    (handleUpdate hubs0 ptA 7).2.2 = 200 :=
  ⟨by decide, by decide,
    (handleUpdate_broadcast hubs0 ptA 7 (by decide)).2.1 "B" (by decide),
    (handleUpdate_broadcast hubs0 ptA 7 (by decide)).2.2.2⟩

set_option maxHeartbeats 2000000 in
/-- Counterexample for claim C6: with a stored previous timestamp of 0
(falsy in JavaScript) and recorded_at 5000 ms the code computes 10 m/s²
(it takes the default 1 s), while the claimed formula — clamp the elapsed
seconds, defaulting to 1 s only when no previous timestamp exists — gives
2 m/s², which is not even harsh; the code still logs a compliance event. -/
theorem computeAcceleration_claim_cx :
    computeAcceleration 10 20 (deltaSecondsOf (some 0) 5000) = 10 ∧
    (20 - 10 : ℚ) / specDeltaSeconds (some 0) 5000 = 2 ∧
    computeAcceleration 10 20 (deltaSecondsOf (some 0) 5000) ≠
      (20 - 10 : ℚ) / specDeltaSeconds (some 0) 5000 ∧
    isHarshAcceleration ((20 - 10 : ℚ) / specDeltaSeconds (some 0) 5000) = false ∧
    (harshDetect 7 1 (some 20) 5000 c6St).complianceLogs ≠ [] := by
  refine ⟨?_, ?_, ?_, ?_, ?_⟩
  · norm_num [computeAcceleration, deltaSecondsOf]
  · norm_num [specDeltaSeconds, max_def]
  · norm_num [computeAcceleration, deltaSecondsOf, specDeltaSeconds, max_def]
  · norm_num [isHarshAcceleration, specDeltaSeconds, max_def, HARSH_ACCEL_THRESHOLD_M_S2,
      abs_of_nonneg]
  · have h1 : c6St.kv.lastSpeed 1 = some 10 := rfl
    have h2 : c6St.kv.lastTs 1 = some 0 := rfl
    have h3 : c6St.kvAvail = true := rfl
    have h4 : c6St.complianceLogs = [] := rfl
    have hd : deltaSecondsOf (some 0) 5000 = 1 := by norm_num [deltaSecondsOf]
    have hacc : computeAcceleration 10 20 1 = 10 := by norm_num [computeAcceleration]
    have hharsh : isHarshAcceleration 10 = true := by
      norm_num [isHarshAcceleration, HARSH_ACCEL_THRESHOLD_M_S2]
    simp only [harshDetect.eq_def, h1, h2, h3, h4, hd, hacc, hharsh, if_true, kvPutLastSpeed,
      kvPutLastTs]
    simp

/-- Claim C6 amended: the acceleration equals (cur − prev)/elapsed where
elapsed is max((recordedAt − lastTs)/1000, 0.001) when a previous timestamp
exists and is nonzero, and 1 s when the previous timestamp is missing or
stored as 0 (JavaScript falsiness); a sample is harsh exactly when the
absolute acceleration is at least 5 m/s²; the two quoted examples hold. -/
theorem computeAcceleration_amended :
    (∀ (recordedAt : Int) (prev cur : ℚ),
      computeAcceleration prev cur (deltaSecondsOf none recordedAt) = (cur - prev) / 1) ∧
    (∀ (recordedAt : Int) (prev cur : ℚ),
      computeAcceleration prev cur (deltaSecondsOf (some 0) recordedAt) = (cur - prev) / 1) ∧
    (∀ (t recordedAt : Int) (prev cur : ℚ), t ≠ 0 →
      computeAcceleration prev cur (deltaSecondsOf (some t) recordedAt) =
        (cur - prev) / max (((recordedAt : ℚ) - (t : ℚ)) / 1000) (1 / 1000)) ∧
    (∀ a : ℚ, isHarshAcceleration a = true ↔ 5 ≤ |a|) ∧
    computeAcceleration 10 20 (deltaSecondsOf (some 0) 1000) = 10 ∧
    isHarshAcceleration (computeAcceleration 10 20 (deltaSecondsOf (some 0) 1000)) = true ∧
    computeAcceleration 10 11 1 = 1 ∧
    isHarshAcceleration (computeAcceleration 10 11 1) = false := by
  refine ⟨?_, ?_, ?_, ?_, ?_, ?_, ?_, ?_⟩
  · intro recordedAt prev cur
    norm_num [computeAcceleration, deltaSecondsOf]
  · intro recordedAt prev cur
    norm_num [computeAcceleration, deltaSecondsOf]
  · intro t recordedAt prev cur ht
    have hpos : (0 : ℚ) < max (((recordedAt : ℚ) - (t : ℚ)) / 1000) (1 / 1000) :=
      lt_of_lt_of_le (by norm_num) (le_max_right _ _)
    simp [computeAcceleration, deltaSecondsOf, ht, not_le.mpr hpos]
  · intro a
    simp [isHarshAcceleration, HARSH_ACCEL_THRESHOLD_M_S2, ge_iff_le]
  · norm_num [computeAcceleration, deltaSecondsOf]
  · norm_num [computeAcceleration, deltaSecondsOf, isHarshAcceleration,
      HARSH_ACCEL_THRESHOLD_M_S2, abs_of_nonneg]
  · norm_num [computeAcceleration]
  · norm_num [computeAcceleration, isHarshAcceleration, HARSH_ACCEL_THRESHOLD_M_S2,
      abs_of_nonneg]

/-- Witness for the amended C6 at a nonzero previous timestamp. -/
theorem computeAcceleration_amended_witness :
    (1000 : Int) ≠ 0 ∧
    computeAcceleration 10 20 (deltaSecondsOf (some 1000) 2000) =
      (20 - 10 : ℚ) / max (((2000 : ℚ) - (1000 : ℚ)) / 1000) (1 / 1000) :=
  ⟨by decide, computeAcceleration_amended.2.2.1 1000 2000 10 20 (by decide)⟩

set_option maxRecDepth 8000 in
/-- Counterexample for claim C1: on a cap-triggered append whose durable
insert fails, the buffer store keeps exactly the 199 previously buffered
points; the point whose append triggered the flush is not among them, so
it is not available for a later retry. -/
theorem bufferPoint_flush_failure_cx :
    bufferPoint 1 newPt st199 = Res.err errSt199 ∧
    errSt199.kv.buffer 1 = some (List.replicate 199 basePt) ∧
    newPt ∉ (errSt199.kv.buffer 1).getD [] := by
  refine ⟨rfl, rfl, by decide⟩

/-- Claim C1 amended: whenever a flush's durable insert fails — whether the
flush was cap-triggered from an append, time-triggered, or explicit — the
buffer store is left exactly as it was, so every point that had been
persisted to the buffer remains available for a later retry; the point
whose append triggered the flush, never having been persisted, is not
retained, and its failure is surfaced to the caller. -/
theorem bufferPoint_flush_failure_amended :
    (∀ (v : Int) (p : GpsPoint) (st st' : TrackState),
      bufferPoint v p st = Res.err st' → st'.kv.buffer = st.kv.buffer) ∧
    (∀ (v : Int) (st st' : TrackState),
      maybeFlushBuffer v st = Res.err st' → st'.kv.buffer = st.kv.buffer) ∧
    (∀ (v : Int) (pts : Option (List GpsPoint)) (st st' : TrackState),
      flushBufferToDb v pts st = Res.err st' → st'.kv.buffer = st.kv.buffer) := by
  refine ⟨?_, ?_, ?_⟩
  · intro v p st st' h
    rw [bufferPoint_err_kv v p st st' h]
  · intro v st st' h
    rw [maybeFlushBuffer_err_kv v st st' h]
  · intro v pts st st' h
    rw [flushBufferToDb_err_kv v pts st st' h]

set_option maxRecDepth 8000 in
/-- Witness for the amended C1 at the concrete failing cap-triggered
append. -/
theorem bufferPoint_flush_failure_amended_witness :
    bufferPoint 1 newPt st199 = Res.err errSt199 ∧
    errSt199.kv.buffer = st199.kv.buffer :=
  ⟨rfl, bufferPoint_flush_failure_amended.1 1 newPt st199 errSt199 rfl⟩

/-- Claim C2: with KV available, an append below the 200-point cap stores
the point at the tail and returns the new length with no durable write;
appending N ≤ 199 points to an empty buffer leaves a buffer of length N
and the durable store untouched; appending 200 points ends with exactly
one flush that inserts all 200 rows, an empty buffer, a refreshed
last-flush marker, and a final return of 0. -/
theorem bufferPoint_sequence :
    (∀ (st : TrackState) (v : Int) (p : GpsPoint) (l : List GpsPoint),
      st.kvAvail = true → (st.kv.buffer v).getD [] = l → l.length + 1 < 200 →
      bufferPoint v p st = Res.ok (l.length + 1) (kvPutBuffer st v (l ++ [p]))) ∧
    (∀ (st : TrackState) (v : Int) (ps : List GpsPoint),
      st.kvAvail = true → st.kv.buffer v = none → ps ≠ [] → ps.length ≤ 199 →
      appendAll v ps st = Res.ok ps.length (kvPutBuffer st v ps)) ∧
    (∀ (st : TrackState) (v : Int) (ps : List GpsPoint),
      st.kvAvail = true → st.kv.buffer v = none → (∀ n, st.dbFails n = false) →
      ps.length = 200 →
      appendAll v ps st = Res.ok 0
        (kvPutLastFlush (kvDeleteBuffer (addRows st (ps.map (rowOf v))) v) v st.now)) := by
  refine ⟨?_, ?_, ?_⟩
  · intro st v p l hkv hbuf hlen
    exact bufferPoint_small v p st l hkv hbuf hlen
  · intro st v ps hkv hbuf hne hlen
    have h := appendAll_ok v ps st [] hkv (by simp [hbuf]) hne (by simpa using hlen)
    simpa using h
  · intro st v ps hkv hbuf hdb hlen
    have hne : ps ≠ [] := by
      intro h0
      rw [h0] at hlen
      simp at hlen
    have h := appendAll_cap v ps st [] hkv (by simp [hbuf]) hne (by simpa using hlen) hdb
    simpa using h

set_option maxRecDepth 8000 in
/-- Witness for C2 at concrete runs of 1, 5 and 200 appends on the empty
state. -/
theorem bufferPoint_sequence_witness :
    st0.kvAvail = true ∧ st0.kv.buffer 1 = none ∧
    bufferPoint 1 basePt st0 =
      Res.ok (([] : List GpsPoint).length + 1) (kvPutBuffer st0 1 ([] ++ [basePt])) ∧
    appendAll 1 (List.replicate 5 basePt) st0 =
      Res.ok (List.replicate 5 basePt).length (kvPutBuffer st0 1 (List.replicate 5 basePt)) ∧
    appendAll 1 (List.replicate 200 basePt) st0 =
      Res.ok 0 (kvPutLastFlush
        (kvDeleteBuffer (addRows st0 ((List.replicate 200 basePt).map (rowOf 1))) 1) 1 st0.now) :=
  ⟨rfl, rfl,
    bufferPoint_sequence.1 st0 1 basePt [] rfl rfl (by decide),
    bufferPoint_sequence.2.1 st0 1 (List.replicate 5 basePt) rfl rfl (by decide) (by decide),
    bufferPoint_sequence.2.2 st0 1 (List.replicate 200 basePt) rfl rfl (fun n => rfl) (by decide)⟩

/-- Claim C3: an append performed while the KV store is unavailable writes
the point synchronously to the durable store as a single row, touches no
buffer, and still reports success (returning 1, surfaced as a successful
ingestion). -/
theorem bufferPoint_direct_write :
    ∀ (st : TrackState) (v : Int) (p : GpsPoint),
      st.kvAvail = false → st.dbFails st.dbCalls = false →
      bufferPoint v p st = Res.ok 1 (addRows st [rowOf v p]) := by
  intro st v p hkv hdb
  simp [bufferPoint, hkv, writeSinglePointToDb, dbInsert, hdb, addRows]

/-- Witness for C3 on the concrete KV-less state. -/
theorem bufferPoint_direct_write_witness :
    stNoKv.kvAvail = false ∧ stNoKv.dbFails stNoKv.dbCalls = false ∧
    bufferPoint 1 basePt stNoKv = Res.ok 1 (addRows stNoKv [rowOf 1 basePt]) :=
  ⟨rfl, rfl, bufferPoint_direct_write stNoKv 1 basePt rfl rfl⟩

/-- Claim C4: the time-based flush check with a marker at least 5 minutes
stale flushes every buffered point, empties the buffer and refreshes the
marker when the buffer is non-empty; with an empty buffer it only
refreshes the marker and writes no rows; with a fresh marker it changes
nothing. -/
theorem maybeFlushBuffer_cases :
    (∀ (st : TrackState) (v : Int) (l : List GpsPoint),
      st.kvAvail = true → BUFFER_FLUSH_MS ≤ st.now - (st.kv.lastFlush v).getD 0 →
      (st.kv.buffer v).getD [] = l → l ≠ [] → (∀ n, st.dbFails n = false) →
      maybeFlushBuffer v st = Res.ok ()
        (kvPutLastFlush (kvDeleteBuffer (addRows st (l.map (rowOf v))) v) v st.now)) ∧
    (∀ (st : TrackState) (v : Int),
      st.kvAvail = true → BUFFER_FLUSH_MS ≤ st.now - (st.kv.lastFlush v).getD 0 →
      (st.kv.buffer v).getD [] = [] →
      maybeFlushBuffer v st = Res.ok () (kvPutLastFlush st v st.now)) ∧
    (∀ (st : TrackState) (v : Int),
      st.kvAvail = true → st.now - (st.kv.lastFlush v).getD 0 < BUFFER_FLUSH_MS →
      maybeFlushBuffer v st = Res.ok () st) := by
  refine ⟨?_, ?_, ?_⟩
  · intro st v l hkv hd hbuf hne hdb
    have hf := flushBufferToDb_some_ok v l st hkv hdb
    have hlen : 0 < l.length := List.length_pos.mpr hne
    simp [maybeFlushBuffer, hkv, hd, hbuf, hlen, hf]
  · intro st v hkv hd hbuf
    simp [maybeFlushBuffer, hkv, hd, hbuf]
  · intro st v hkv hd
    simp [maybeFlushBuffer, hkv, hd.not_le]

/-- Witness for C4 at the three concrete states: stale marker with one
buffered point, stale marker with an empty buffer, and a fresh marker. -/
theorem maybeFlushBuffer_cases_witness :
    st4.kvAvail = true ∧ BUFFER_FLUSH_MS ≤ st4.now - (st4.kv.lastFlush 1).getD 0 ∧
    (st4.kv.buffer 1).getD [] = [basePt] ∧
    maybeFlushBuffer 1 st4 = Res.ok ()
      (kvPutLastFlush (kvDeleteBuffer (addRows st4 ([basePt].map (rowOf 1))) 1) 1 st4.now) ∧
    maybeFlushBuffer 1 st4e = Res.ok () (kvPutLastFlush st4e 1 st4e.now) ∧
    maybeFlushBuffer 1 st4f = Res.ok () st4f :=
  ⟨rfl, by decide, rfl,
    maybeFlushBuffer_cases.1 st4 1 [basePt] rfl (by decide) rfl (by decide) (fun n => rfl),
    maybeFlushBuffer_cases.2.1 st4e 1 rfl (by decide) rfl,
    maybeFlushBuffer_cases.2.2 st4f 1 rfl (by decide)⟩

/-- Claim C7: an ingestion whose vehicle identifier does not resolve to an
active vehicle of the claimed organization is rejected with
VEHICLE_NOT_FOUND 404 and the state — latest cache, buffer, last-flush
marker, motion state, durable rows, compliance log, broadcast hub — is
returned exactly unchanged. -/
theorem postTracking_vehicle_not_found :
    ∀ (orgNumericId : Int) (body : Ingest) (st : TrackState),
      validateLatLon (JsNum.num body.latitude) (JsNum.num body.longitude) = true →
      resolveVehicleNumericId st orgNumericId body.vehicle_uuid = none →
      postTracking orgNumericId body st = (ApiRes.errRes "VEHICLE_NOT_FOUND" 404, st) := by
  intro o body st hval hres
  simp [postTracking, hval, hres]

/-- Witness for C7 on the concrete state whose vehicles table does not
contain the requested uuid. -/
theorem postTracking_vehicle_not_found_witness :
    validateLatLon (JsNum.num body7.latitude) (JsNum.num body7.longitude) = true ∧
    resolveVehicleNumericId c8St 7 body7.vehicle_uuid = none ∧
    postTracking 7 body7 c8St = (ApiRes.errRes "VEHICLE_NOT_FOUND" 404, c8St) :=
  ⟨by decide, rfl, postTracking_vehicle_not_found 7 body7 c8St (by decide) rfl⟩

/-- Claim C8: after validation and identity resolution the handler writes
the latest-position cache before attempting the buffer append, so when the
buffer append throws the handler answers TRACKING_FAILED 500 while the
latest cache of that vehicle already holds the new point. -/
theorem postTracking_latest_despite_failure :
    ∀ (orgNumericId : Int) (body : Ingest) (st : TrackState) (vid : Int) (st2 : TrackState),
      st.kvAvail = true →
      validateLatLon (JsNum.num body.latitude) (JsNum.num body.longitude) = true →
      resolveVehicleNumericId st orgNumericId body.vehicle_uuid = some vid →
      vid ≠ 0 →
      bufferPoint vid (pointOf orgNumericId vid body (body.recorded_at.getD st.now))
        (storeLatestInKV vid (pointOf orgNumericId vid body (body.recorded_at.getD st.now)) st)
        = Res.err st2 →
      postTracking orgNumericId body st = (ApiRes.errRes "TRACKING_FAILED" 500, st2) ∧
      st2.kv.latest vid = some (pointOf orgNumericId vid body (body.recorded_at.getD st.now)) := by
  intro o body st vid st2 hkv hval hres hvid herr
  constructor
  · simp [postTracking, hval, hres, hvid, herr]
  · have hk := bufferPoint_err_kv _ _ _ _ herr
    rw [hk]
    simp [storeLatestInKV, hkv, kvPutLatest, Function.update_same]

set_option maxRecDepth 8000 in
/-- Witness for C8: the concrete ingestion of body8 on c8St, whose flush
insert fails, answers TRACKING_FAILED with the latest cache updated. -/
theorem postTracking_latest_despite_failure_witness :
    c8St.kvAvail = true ∧
    validateLatLon (JsNum.num body8.latitude) (JsNum.num body8.longitude) = true ∧
    resolveVehicleNumericId c8St 7 body8.vehicle_uuid = some 1 ∧ (1 : Int) ≠ 0 ∧
    bufferPoint 1 (pointOf 7 1 body8 (body8.recorded_at.getD c8St.now))
      (storeLatestInKV 1 (pointOf 7 1 body8 (body8.recorded_at.getD c8St.now)) c8St)
      = Res.err c8ErrSt ∧
    postTracking 7 body8 c8St = (ApiRes.errRes "TRACKING_FAILED" 500, c8ErrSt) ∧
    c8ErrSt.kv.latest 1 = some (pointOf 7 1 body8 (body8.recorded_at.getD c8St.now)) := by
  have herr : bufferPoint 1 (pointOf 7 1 body8 (body8.recorded_at.getD c8St.now))
      (storeLatestInKV 1 (pointOf 7 1 body8 (body8.recorded_at.getD c8St.now)) c8St)
      = Res.err c8ErrSt := rfl
  have h := postTracking_latest_despite_failure 7 body8 c8St 1 c8ErrSt rfl (by decide) rfl
    (by decide) herr
  exact ⟨rfl, by decide, rfl, by decide, herr, h.1, h.2⟩

/-- Witness for C9 at concrete in-range and NaN inputs. -/
theorem validateLatLon_ranges_witness :
    validateLatLon (JsNum.num 10) (JsNum.num 20) = true ∧
    validateLatLon JsNum.nan (JsNum.num 0) = false :=
  ⟨(validateLatLon_ranges.1 10 20).mpr (by norm_num),
    (validateLatLon_ranges.2 (JsNum.num 0)).1⟩

/-- Witness for C10 at concrete coordinates. -/
theorem haversineDistanceKm_self_symm_witness :
    haversineDistanceKm 1 2 1 2 = 0 ∧
    haversineDistanceKm 1 2 3 4 = haversineDistanceKm 3 4 1 2 :=
  ⟨haversineDistanceKm_self_symm.1 1 2, haversineDistanceKm_self_symm.2 1 2 3 4⟩
